import Mathlib

/-
Verification of the incoming-call signal filtering and lifecycle engine of the
Liberdus native app shell.

The definitions below are shallow embeddings of the TypeScript source
(src/index.ts, src/app.config.js, src/CallKeepService.tsx, src/App.tsx) and of
the iOS AppDelegate (Swift).  Platform effects are made explicit:

  * the persisted AsyncStorage dedup list is threaded as an explicit
    `List String` state (newest first), modelling the success path of the
    storage reads/writes (the source catches storage errors and proceeds);
  * `Date.parse` / `ISO8601DateFormatter().date(from:)` are oracles of type
    `String → Option Int` (`none` models NaN / nil, `some t` a millisecond
    timestamp);
  * `Date.now()` is an explicit `now : Int` parameter (milliseconds);
  * calls into the RNCallKeep platform facility are recorded as actions in an
    emitted trace; platform calls that may throw take a Bool oracle saying
    whether they throw, and JS `try/catch` is translated to explicit branching;
  * `setTimeout` delays are recorded as data (the `delayMs` field of the
    emitted action, resp. the armed-timer state component).
-/

/-! ## Constants (src/index.ts, src/app.config.js, src/CallKeepService.tsx) -/

/-- `MAX_STORED_MESSAGES` from src/index.ts: capacity of the persisted
dedup list. -/
def MAX_STORED_MESSAGES : Nat := 5

/-- `ANDROID_INCOMING_CALL_TIMEOUT_MS` from src/app.config.js: the Android
background incoming-call auto-end delay. -/
def ANDROID_INCOMING_CALL_TIMEOUT_MS : Nat := 60 * 1000

/-- `BACKGROUND_CALL_EXPIRY_THRESHOLD_MS` from src/app.config.js: staleness
threshold for call notifications. -/
def BACKGROUND_CALL_EXPIRY_THRESHOLD_MS : Int := 5 * 60 * 1000

/-- `backgroundCallExpiryThresholdMs` from the iOS AppDelegate
(`isStaleCallNotification` in the Swift source): 5 minutes in ms. -/
def IOS_BACKGROUND_CALL_EXPIRY_THRESHOLD_MS : Int := 5 * 60 * 1000

/-- The fixed answer-to-resolve delay in `CallKeepService.onAnswerCall`
(src/CallKeepService.tsx: `setTimeout(() => this.endCall(callUUID), 200)`). -/
def SERVICE_ANSWER_END_DELAY_MS : Nat := 200

/-! ## Message dedup store (src/index.ts `handleMessageDeduplication`) -/

/-- `handleMessageDeduplication` from src/index.ts, with the AsyncStorage
contents passed and returned explicitly.  Returns `(isDuplicate, newStore)`:
if `messageId` is already stored it returns `true` and leaves the store
unchanged; otherwise it prepends the id (`[messageId, ...storedIds]`) and
truncates to `MAX_STORED_MESSAGES` (`updatedIds.slice(0, MAX_STORED_MESSAGES)`)
before returning `false`. -/
def handleMessageDeduplication (messageId : String) (storedIds : List String) :
    Bool × List String :=
  if messageId ∈ storedIds then (true, storedIds)
  else (false, (messageId :: storedIds).take MAX_STORED_MESSAGES)

/-! ## Freshness check (src/app.config.js `isStaleCallNotification`) -/

/-- `isStaleCallNotification` from src/app.config.js.  `sentAt` is the
`callData.sentAt` field (`none` models `undefined`; the JS guard
`!callData.sentAt` is also true for the empty string, hence the `""` case).
`dateParse` is the `Date.parse` oracle (`none` models a non-finite result) and
`now` is `Date.now()`.  Returns `true` (stale/reject) when the field is
missing, unparsable, or `now - sentAt > BACKGROUND_CALL_EXPIRY_THRESHOLD_MS`. -/
def isStaleCallNotification (sentAt : Option String)
    (dateParse : String → Option Int) (now : Int) : Bool :=
  match sentAt with
  | none => true
  | some s =>
    if s = "" then true
    else
      match dateParse s with
      | none => true
      | some sentAtTimestamp =>
        decide (now - sentAtTimestamp > BACKGROUND_CALL_EXPIRY_THRESHOLD_MS)

/-! ## The Android background message handler (src/index.ts) -/

/-- The `data` payload of a Firebase remote message, as read by the background
handler (`remoteMessage.data as unknown as CallData`). -/
structure MessageData where
  type : String
  callerName : Option String
  callId : String
  sentAt : Option String
  deriving DecidableEq

/-- A Firebase remote message as consumed by the background handler:
`remoteMessage.data` and `remoteMessage.messageId`. -/
structure RemoteMessage where
  data : Option MessageData
  messageId : Option String
  deriving DecidableEq

/-- The early-return outcome of the background message handler in
src/index.ts: which guard fired, or `presented` with the call UUID handed to
`RNCallKeepModule.displayIncomingCall`. -/
inductive BgDecision where
  | ignoredNoData
  | ignoredNonCall
  | ignoredNoMessageId
  | rejectedDuplicate
  | rejectedStale
  | moduleUnavailable
  | presented (callUUID : String)
  deriving DecidableEq

/-- Whether a background-handler outcome reached the call-UI presentation
step (`RNCallKeepModule.displayIncomingCall`). -/
def BgDecision.presentsUI : BgDecision → Bool
  | .presented _ => true
  | _ => false

/-- The Firebase background message handler registered in src/index.ts
(`setBackgroundMessageHandler` callback), as a function from the message, the
persisted dedup store, the `Date.parse` oracle, the current time, and the
availability of the RNCallKeep native module, to the outcome and the new
store.  Mirrors the source's guard order: no `data` → return; `data.type !==
"incoming_call"` → return; falsy `messageId` → return;
`handleMessageDeduplication` says duplicate → return; `isStaleCallNotification`
→ return; otherwise display the call under `callData.callId`. -/
def backgroundMessageHandler (msg : RemoteMessage) (storedIds : List String)
    (dateParse : String → Option Int) (now : Int) (moduleAvailable : Bool) :
    BgDecision × List String :=
  match msg.data with
  | none => (.ignoredNoData, storedIds)
  | some callData =>
    if callData.type = "incoming_call" then
      match msg.messageId with
      | none => (.ignoredNoMessageId, storedIds)
      | some messageId =>
        if messageId = "" then (.ignoredNoMessageId, storedIds)
        else
          let dedup := handleMessageDeduplication messageId storedIds
          if dedup.1 then (.rejectedDuplicate, dedup.2)
          else if isStaleCallNotification callData.sentAt dateParse now then
            (.rejectedStale, dedup.2)
          else if moduleAvailable then (.presented callData.callId, dedup.2)
          else (.moduleUnavailable, dedup.2)
    else (.ignoredNonCall, storedIds)

/-! ## Helper lemmas about the dedup store -/

theorem handleMessageDeduplication_of_mem {messageId : String}
    {storedIds : List String} (h : messageId ∈ storedIds) :
    handleMessageDeduplication messageId storedIds = (true, storedIds) := by
  simp [handleMessageDeduplication, h]

theorem handleMessageDeduplication_of_not_mem {messageId : String}
    {storedIds : List String} (h : messageId ∉ storedIds) :
    handleMessageDeduplication messageId storedIds =
      (false, (messageId :: storedIds).take MAX_STORED_MESSAGES) := by
  simp [handleMessageDeduplication, h]

theorem mem_handleMessageDeduplication_snd (messageId : String)
    (storedIds : List String) :
    messageId ∈ (handleMessageDeduplication messageId storedIds).2 := by
  by_cases h : messageId ∈ storedIds
  · rw [handleMessageDeduplication_of_mem h]
    exact h
  · rw [handleMessageDeduplication_of_not_mem h]
    show messageId ∈ (messageId :: storedIds).take 5
    rw [show (5 : Nat) = 4 + 1 from rfl, List.take_succ_cons]
    exact List.mem_cons_self _ _

/-- Unfolding the background handler on a well-shaped call message. -/
theorem backgroundMessageHandler_call_shape {msg : RemoteMessage}
    {callData : MessageData} {messageId : String} (storedIds : List String)
    (dateParse : String → Option Int) (now : Int) (moduleAvailable : Bool)
    (hd : msg.data = some callData) (ht : callData.type = "incoming_call")
    (hm : msg.messageId = some messageId) (hne : messageId ≠ "") :
    backgroundMessageHandler msg storedIds dateParse now moduleAvailable =
      (let dedup := handleMessageDeduplication messageId storedIds
       if dedup.1 then (BgDecision.rejectedDuplicate, dedup.2)
       else if isStaleCallNotification callData.sentAt dateParse now then
         (BgDecision.rejectedStale, dedup.2)
       else if moduleAvailable then (BgDecision.presented callData.callId, dedup.2)
       else (BgDecision.moduleUnavailable, dedup.2)) := by
  simp [backgroundMessageHandler, hd, ht, hm, hne]

/-- On a well-shaped call message the handler's resulting store is exactly the
dedup-registration result, regardless of the staleness/availability branches. -/
theorem backgroundMessageHandler_snd {msg : RemoteMessage}
    {callData : MessageData} {messageId : String} (storedIds : List String)
    (dateParse : String → Option Int) (now : Int) (moduleAvailable : Bool)
    (hd : msg.data = some callData) (ht : callData.type = "incoming_call")
    (hm : msg.messageId = some messageId) (hne : messageId ≠ "") :
    (backgroundMessageHandler msg storedIds dateParse now moduleAvailable).2 =
      (handleMessageDeduplication messageId storedIds).2 := by
  rw [backgroundMessageHandler_call_shape storedIds dateParse now
    moduleAvailable hd ht hm hne]
  simp only []
  split <;> [rfl; skip]
  split <;> [rfl; skip]
  split <;> rfl

/-! ## C1 -/

/-- C1: an inbound call signal whose `messageId` is already in the persisted
dedup store is rejected (`handleMessageDeduplication` returns `true`, the
background handler returns `rejectedDuplicate` and presents no call UI, and
the store is unchanged); a signal whose `messageId` is not yet stored passes
the duplicate check; and for two call signals with the same non-empty
`messageId` processed in sequence, the second is always rejected as a
duplicate, so only the first can be admitted. -/
theorem c1_duplicate_messageId_only_first_admitted
    (msg msg2 : RemoteMessage) (storedIds : List String)
    (dateParse : String → Option Int) (now : Int) (moduleAvailable : Bool)
    (callData callData2 : MessageData) (messageId : String)
    (h1 : msg.data = some callData) (h2 : callData.type = "incoming_call")
    (h3 : msg.messageId = some messageId) (h4 : messageId ≠ "")
    (g1 : msg2.data = some callData2) (g2 : callData2.type = "incoming_call")
    (g3 : msg2.messageId = some messageId) :
    (messageId ∈ storedIds →
      handleMessageDeduplication messageId storedIds = (true, storedIds) ∧
      backgroundMessageHandler msg storedIds dateParse now moduleAvailable =
        (.rejectedDuplicate, storedIds)) ∧
    (messageId ∉ storedIds →
      (backgroundMessageHandler msg storedIds dateParse now
        moduleAvailable).1 ≠ .rejectedDuplicate) ∧
    (backgroundMessageHandler msg2
        (backgroundMessageHandler msg storedIds dateParse now moduleAvailable).2
        dateParse now moduleAvailable).1 = .rejectedDuplicate := by
  refine ⟨?_, ?_, ?_⟩
  · intro hmem
    refine ⟨handleMessageDeduplication_of_mem hmem, ?_⟩
    rw [backgroundMessageHandler_call_shape storedIds dateParse now
      moduleAvailable h1 h2 h3 h4, handleMessageDeduplication_of_mem hmem]
    simp
  · intro hmem
    rw [backgroundMessageHandler_call_shape storedIds dateParse now
      moduleAvailable h1 h2 h3 h4, handleMessageDeduplication_of_not_mem hmem]
    split <;> [simp_all; split <;> simp_all]
  · have hmem2 : messageId ∈
        (backgroundMessageHandler msg storedIds dateParse now
          moduleAvailable).2 := by
      rw [backgroundMessageHandler_snd storedIds dateParse now moduleAvailable
        h1 h2 h3 h4]
      exact mem_handleMessageDeduplication_snd messageId storedIds
    rw [backgroundMessageHandler_call_shape _ dateParse now moduleAvailable
      g1 g2 g3 h4, handleMessageDeduplication_of_mem hmem2]
    simp

/-- Witness for C1 at concrete inputs. -/
theorem c1_duplicate_messageId_only_first_admitted_witness :
    ("m1" ∈ ["m1"] →
      handleMessageDeduplication "m1" ["m1"] = (true, ["m1"]) ∧
      backgroundMessageHandler
        ⟨some ⟨"incoming_call", some "Alice", "c1", some "t0"⟩, some "m1"⟩
        ["m1"] (fun _ => some 0) 0 true = (.rejectedDuplicate, ["m1"])) ∧
    ("m1" ∉ (["m1"] : List String) →
      (backgroundMessageHandler
        ⟨some ⟨"incoming_call", some "Alice", "c1", some "t0"⟩, some "m1"⟩
        ["m1"] (fun _ => some 0) 0 true).1 ≠ .rejectedDuplicate) ∧
    (backgroundMessageHandler
        ⟨some ⟨"incoming_call", some "Bob", "c2", some "t0"⟩, some "m1"⟩
        (backgroundMessageHandler
          ⟨some ⟨"incoming_call", some "Alice", "c1", some "t0"⟩, some "m1"⟩
          ["m1"] (fun _ => some 0) 0 true).2
        (fun _ => some 0) 0 true).1 = .rejectedDuplicate :=
  c1_duplicate_messageId_only_first_admitted
    ⟨some ⟨"incoming_call", some "Alice", "c1", some "t0"⟩, some "m1"⟩
    ⟨some ⟨"incoming_call", some "Bob", "c2", some "t0"⟩, some "m1"⟩
    ["m1"] (fun _ => some 0) 0 true
    ⟨"incoming_call", some "Alice", "c1", some "t0"⟩
    ⟨"incoming_call", some "Bob", "c2", some "t0"⟩ "m1"
    rfl rfl rfl (by decide) rfl rfl rfl

/-! ## C4 -/

/-- C4: the persisted dedup store is a bounded, insertion-ordered list.
Starting from any store of length at most `MAX_STORED_MESSAGES` (5) with no
repeated id, a dedup registration yields a store of length at most 5 with no
repeated id, and when the store is full and the id is fresh, the result is the
new id prepended with the oldest entry (the last of the newest-first list)
evicted. -/
theorem c4_dedup_store_bounded_nodup_evicts_oldest
    (messageId : String) (storedIds : List String)
    (hlen : storedIds.length ≤ MAX_STORED_MESSAGES) (hnd : storedIds.Nodup) :
    (handleMessageDeduplication messageId storedIds).2.length ≤
      MAX_STORED_MESSAGES ∧
    (handleMessageDeduplication messageId storedIds).2.Nodup ∧
    (messageId ∉ storedIds → storedIds.length = MAX_STORED_MESSAGES →
      (handleMessageDeduplication messageId storedIds).2 =
        messageId :: storedIds.dropLast) := by
  by_cases h : messageId ∈ storedIds
  · rw [handleMessageDeduplication_of_mem h]
    exact ⟨hlen, hnd, fun hc => absurd h hc⟩
  · rw [handleMessageDeduplication_of_not_mem h]
    refine ⟨List.length_take_le _ _, ?_, ?_⟩
    · exact (List.take_sublist _ _).nodup (List.nodup_cons.mpr ⟨h, hnd⟩)
    · intro _ hfull
      show (messageId :: storedIds).take 5 = messageId :: storedIds.dropLast
      rw [show (5 : Nat) = 4 + 1 from rfl, List.take_succ_cons,
        List.dropLast_eq_take]
      rw [show storedIds.length = 5 from hfull]

/-- Witness for C4 at a full concrete store. -/
theorem c4_dedup_store_bounded_nodup_evicts_oldest_witness :
    (handleMessageDeduplication "m6" ["m5", "m4", "m3", "m2", "m1"]).2.length ≤
      MAX_STORED_MESSAGES ∧
    (handleMessageDeduplication "m6" ["m5", "m4", "m3", "m2", "m1"]).2.Nodup ∧
    (handleMessageDeduplication "m6" ["m5", "m4", "m3", "m2", "m1"]).2 =
      "m6" :: ["m5", "m4", "m3", "m2", "m1"].dropLast := by
  have h := c4_dedup_store_bounded_nodup_evicts_oldest "m6"
    ["m5", "m4", "m3", "m2", "m1"] (by decide) (by decide)
  exact ⟨h.1, h.2.1, h.2.2 (by decide) (by decide)⟩

/-! ## C2 -/

/-- C2: a call signal whose `sentAt` parses to a time more than
`BACKGROUND_CALL_EXPIRY_THRESHOLD_MS` (5 minutes) before `now` is classified
stale by `isStaleCallNotification`, and the background handler never reaches
the call-UI presentation step for it, whatever the dedup store contains (so
regardless of whether its `messageId` is new). -/
theorem c2_stale_signal_never_presented
    (msg : RemoteMessage) (storedIds : List String)
    (dateParse : String → Option Int) (now : Int) (moduleAvailable : Bool)
    (callData : MessageData) (s : String) (t : Int)
    (h1 : msg.data = some callData) (hsent : callData.sentAt = some s)
    (hparse : dateParse s = some t)
    (hstale : now - t > BACKGROUND_CALL_EXPIRY_THRESHOLD_MS) :
    isStaleCallNotification callData.sentAt dateParse now = true ∧
    (backgroundMessageHandler msg storedIds dateParse now
      moduleAvailable).1.presentsUI = false := by
  have hstaleEq : isStaleCallNotification callData.sentAt dateParse now = true := by
    rw [hsent]
    by_cases hs : s = ""
    · simp [isStaleCallNotification, hs]
    · simp [isStaleCallNotification, hs, hparse]
      exact hstale
  refine ⟨hstaleEq, ?_⟩
  by_cases ht : callData.type = "incoming_call"
  · cases hm : msg.messageId with
    | none => simp [backgroundMessageHandler, h1, ht, hm, BgDecision.presentsUI]
    | some mid =>
      by_cases hmid : mid = ""
      · simp [backgroundMessageHandler, h1, ht, hm, hmid, BgDecision.presentsUI]
      · rw [backgroundMessageHandler_call_shape storedIds dateParse now
          moduleAvailable h1 ht hm hmid]
        by_cases hmem : mid ∈ storedIds
        · rw [handleMessageDeduplication_of_mem hmem]
          simp [BgDecision.presentsUI]
        · rw [handleMessageDeduplication_of_not_mem hmem]
          simp [hstaleEq, BgDecision.presentsUI]
  · simp [backgroundMessageHandler, h1, ht, BgDecision.presentsUI]

/-- Witness for C2: a six-minute-old signal with a fresh `messageId`. -/
theorem c2_stale_signal_never_presented_witness :
    isStaleCallNotification
      (MessageData.sentAt ⟨"incoming_call", some "Alice", "c1", some "T"⟩)
      (fun _ => some 0) 360000 = true ∧
    (backgroundMessageHandler
      ⟨some ⟨"incoming_call", some "Alice", "c1", some "T"⟩, some "m1"⟩
      [] (fun _ => some 0) 360000 true).1.presentsUI = false :=
  c2_stale_signal_never_presented
    ⟨some ⟨"incoming_call", some "Alice", "c1", some "T"⟩, some "m1"⟩
    [] (fun _ => some 0) 360000 true
    ⟨"incoming_call", some "Alice", "c1", some "T"⟩ "T" 0
    rfl rfl rfl (by decide)

/-! ## C3 -/

/-- A concrete call message: fresh `messageId` `"m1"`, `sentAt` parsing to
time 0 while `now` is past the staleness threshold. -/
def c3msg : RemoteMessage :=
  ⟨some ⟨"incoming_call", some "Alice", "c1", some "T"⟩, some "m1"⟩

/-- C3 counterexample: the claim "the stored messageId list is mutated if and
only if the signal is admitted" is false.  `c3msg` is rejected as stale (not
admitted, no UI), yet its `messageId` is inserted into the store: the dedup
registration in `handleMessageDeduplication` happens before the staleness
check in the handler. -/
theorem c3_rejected_stale_still_mutates_store_counterexample :
    backgroundMessageHandler c3msg [] (fun _ => some 0) 360000 true =
      (.rejectedStale, ["m1"]) ∧ (["m1"] : List String) ≠ [] := by
  exact ⟨by decide, by decide⟩

/-- C3 amended: the store is mutated exactly when the signal passes the
duplicate check, not when it is admitted.  For a call message with a non-empty
`messageId`: if the id is already stored the store is unchanged; if the id is
fresh it is inserted (prepend and truncate to capacity) regardless of whether
the signal is subsequently rejected as stale or invalid-timestamp, so the
resulting store differs from the original. -/
theorem c3_store_mutated_iff_dup_check_passes
    (msg : RemoteMessage) (storedIds : List String)
    (dateParse : String → Option Int) (now : Int) (moduleAvailable : Bool)
    (callData : MessageData) (messageId : String)
    (h1 : msg.data = some callData) (h2 : callData.type = "incoming_call")
    (h3 : msg.messageId = some messageId) (h4 : messageId ≠ "") :
    (messageId ∈ storedIds →
      (backgroundMessageHandler msg storedIds dateParse now
        moduleAvailable).2 = storedIds) ∧
    (messageId ∉ storedIds →
      (backgroundMessageHandler msg storedIds dateParse now
          moduleAvailable).2 =
        (messageId :: storedIds).take MAX_STORED_MESSAGES ∧
      messageId ∈ (backgroundMessageHandler msg storedIds dateParse now
        moduleAvailable).2 ∧
      (backgroundMessageHandler msg storedIds dateParse now
        moduleAvailable).2 ≠ storedIds) := by
  have hsnd := backgroundMessageHandler_snd storedIds dateParse now
    moduleAvailable h1 h2 h3 h4
  constructor
  · intro hmem
    rw [hsnd, handleMessageDeduplication_of_mem hmem]
  · intro hmem
    have he : (backgroundMessageHandler msg storedIds dateParse now
        moduleAvailable).2 = (messageId :: storedIds).take MAX_STORED_MESSAGES := by
      rw [hsnd, handleMessageDeduplication_of_not_mem hmem]
    have hin : messageId ∈ (backgroundMessageHandler msg storedIds dateParse
        now moduleAvailable).2 := by
      rw [hsnd]
      exact mem_handleMessageDeduplication_snd messageId storedIds
    refine ⟨he, hin, ?_⟩
    intro heq
    rw [heq] at hin
    exact hmem hin

/-- Witness for the amended C3: the fresh stale message of `c3msg` mutates
the empty store into `["m1"]`. -/
theorem c3_store_mutated_iff_dup_check_passes_witness :
    (backgroundMessageHandler c3msg [] (fun _ => some 0) 360000 true).2 =
      (("m1" : String) :: []).take MAX_STORED_MESSAGES ∧
    "m1" ∈ (backgroundMessageHandler c3msg [] (fun _ => some 0) 360000 true).2 ∧
    (backgroundMessageHandler c3msg [] (fun _ => some 0) 360000 true).2 ≠ [] :=
  (c3_store_mutated_iff_dup_check_passes c3msg [] (fun _ => some 0) 360000 true
    ⟨"incoming_call", some "Alice", "c1", some "T"⟩ "m1"
    rfl rfl rfl (by decide)).2 (by decide)

/-! ## RNCallKeep interaction traces (src/index.ts background handlers,
src/CallKeepService.tsx) -/

/-- Calls into the RNCallKeep platform facility, recorded as trace actions.
`delayMs` is the `setTimeout` delay under which the call was issued
(0 = issued immediately in the handler). -/
inductive CKAction where
  | backToForeground
  | endCallAt (callUUID : String) (delayMs : Nat)
  | endAllCallsAt (delayMs : Nat)
  deriving DecidableEq

/-- The mutable state of the Android background call path in src/index.ts:
the pending `incomingCallTimeout` (armed call UUID and `setTimeout` delay,
`none` when cleared) and whether the answer/end event listeners are
registered. -/
structure BgCallState where
  armed : Option (String × Nat)
  listenersActive : Bool
  deriving DecidableEq

/-- State before any call is displayed: no timer armed, listeners
registered. -/
def bgInitialCallState : BgCallState := { armed := none, listenersActive := true }

/-- `clearIncomingCallTimeout` from src/index.ts: cancels the pending timer
(`clearTimeout` and null the handle), a no-op when none is pending. -/
def clearIncomingCallTimeout (s : BgCallState) : BgCallState :=
  { s with armed := none }

/-- `cleanUpRNCallKeepHandlers` from src/index.ts: clears the pending timer
and removes the answerCall/endCall event listeners. -/
def cleanUpRNCallKeepHandlers (s : BgCallState) : BgCallState :=
  { clearIncomingCallTimeout s with listenersActive := false }

/-- `startIncomingCallTimeout` from src/index.ts: clears any pending timer
and arms a `setTimeout` for `callUUID` with delay
`ANDROID_INCOMING_CALL_TIMEOUT_MS`. -/
def startIncomingCallTimeout (callUUID : String) (s : BgCallState) : BgCallState :=
  { clearIncomingCallTimeout s with
      armed := some (callUUID, ANDROID_INCOMING_CALL_TIMEOUT_MS) }

/-- `answerCallHandler` from src/index.ts (background path).  Clears the
pending timeout, then `try { backToForeground; endCall(callUUID) } catch
{ try { endAllCalls } catch { log } }`, then cleans up handlers.  `btfThrows`
and `endThrows` say whether `RNCallKeep.backToForeground` resp.
`RNCallKeep.endCall` throw; if `backToForeground` throws, control jumps to the
catch block so `endCall` is never attempted.  The failure of `endAllCalls`
itself is caught and only logged, so the emitted attempts do not depend on
it. -/
def bgAnswerCall (callUUID : String) (s : BgCallState)
    (btfThrows endThrows : Bool) : BgCallState × List CKAction :=
  let s1 := clearIncomingCallTimeout s
  let trace :=
    if btfThrows then [CKAction.backToForeground, CKAction.endAllCallsAt 0]
    else if endThrows then
      [CKAction.backToForeground, CKAction.endCallAt callUUID 0,
       CKAction.endAllCallsAt 0]
    else [CKAction.backToForeground, CKAction.endCallAt callUUID 0]
  (cleanUpRNCallKeepHandlers s1, trace)

/-- `endCallHandler` from src/index.ts (background path): clears the pending
timeout and cleans up the handlers.  The `callUUID` argument of the event is
unused by the handler body. -/
def bgEndCallEvent (_callUUID : String) (s : BgCallState) : BgCallState :=
  cleanUpRNCallKeepHandlers (clearIncomingCallTimeout s)

/-- The `setTimeout` callback armed by `startIncomingCallTimeout`
(src/index.ts).  In JS the callback only runs if the timer was not cleared,
so firing is modelled as a no-op when `armed = none`.  When armed it
`try { endCall(callUUID) } catch { try { endAllCalls } catch { log } }
finally { cleanUpRNCallKeepHandlers() }`. -/
def bgTimeoutFire (s : BgCallState) (endThrows : Bool) :
    BgCallState × List CKAction :=
  match s.armed with
  | none => (s, [])
  | some (callUUID, _) =>
    let trace :=
      if endThrows then [CKAction.endCallAt callUUID 0, CKAction.endAllCallsAt 0]
      else [CKAction.endCallAt callUUID 0]
    (cleanUpRNCallKeepHandlers s, trace)

/-- `onAnswerCall` from src/CallKeepService.tsx: bring the app to the
foreground (its own try/catch only logs a failure), then
`setTimeout(() => this.endCall(callUUID), 200)`.  `this.endCall` tries
`RNCallKeep.endCall` and falls back to `RNCallKeep.endAllCalls`, both caught,
so the attempts carry the `SERVICE_ANSWER_END_DELAY_MS` delay and do not
depend on the fallback's own success. -/
def serviceOnAnswerCall (callUUID : String) (endThrows : Bool) : List CKAction :=
  [CKAction.backToForeground,
   CKAction.endCallAt callUUID SERVICE_ANSWER_END_DELAY_MS] ++
    (if endThrows then [CKAction.endAllCallsAt SERVICE_ANSWER_END_DELAY_MS]
     else [])

/-- Number of `RNCallKeep.endCall` attempts for `callUUID` in a trace. -/
def endCallCount (callUUID : String) (trace : List CKAction) : Nat :=
  (trace.filter fun a =>
    match a with
    | CKAction.endCallAt u _ => u == callUUID
    | _ => false).length

/-- The `setTimeout` delays of the `RNCallKeep.endCall` attempts for
`callUUID` in a trace, in order. -/
def endCallDelays (callUUID : String) (trace : List CKAction) : List Nat :=
  trace.filterMap fun a =>
    match a with
    | CKAction.endCallAt u d => if u == callUUID then some d else none
    | _ => none

/-! ## C5 -/

/-- C5 counterexample: the claim that every answer handler issues its resolve
after a ~100–300 ms delay is false at the Android background path:
`answerCallHandler` in src/index.ts ends the call immediately (delay 0), and
0 is not in the 100–300 ms range. -/
theorem c5_background_answer_resolves_immediately_counterexample :
    endCallDelays "c1" (bgAnswerCall "c1" bgInitialCallState false false).2 =
      [0] ∧
    ¬(100 ≤ (0 : Nat) ∧ (0 : Nat) ≤ 300) := by
  decide

/-- C5 amended: on every answer event the handler first requests the OS to
bring the app to the foreground and then issues exactly one
`RNCallKeep.endCall` for that callUUID.  On the `CallKeepService.onAnswerCall`
path the end is issued under a fixed 200 ms `setTimeout` (within the
100–300 ms range); on the Android background path (`answerCallHandler` in
src/index.ts) it is issued immediately (delay 0). -/
theorem c5_answer_foreground_then_single_resolve
    (callUUID : String) (s : BgCallState) (endThrows : Bool) :
    (SERVICE_ANSWER_END_DELAY_MS = 200 ∧ 100 ≤ SERVICE_ANSWER_END_DELAY_MS ∧
      SERVICE_ANSWER_END_DELAY_MS ≤ 300) ∧
    (serviceOnAnswerCall callUUID endThrows).take 2 =
      [CKAction.backToForeground,
       CKAction.endCallAt callUUID SERVICE_ANSWER_END_DELAY_MS] ∧
    endCallCount callUUID (serviceOnAnswerCall callUUID endThrows) = 1 ∧
    endCallDelays callUUID (serviceOnAnswerCall callUUID endThrows) =
      [SERVICE_ANSWER_END_DELAY_MS] ∧
    (bgAnswerCall callUUID s false endThrows).2.take 2 =
      [CKAction.backToForeground, CKAction.endCallAt callUUID 0] ∧
    endCallCount callUUID (bgAnswerCall callUUID s false endThrows).2 = 1 ∧
    endCallDelays callUUID (bgAnswerCall callUUID s false endThrows).2 = [0] := by
  cases endThrows <;>
    simp [serviceOnAnswerCall, bgAnswerCall, endCallCount, endCallDelays,
      SERVICE_ANSWER_END_DELAY_MS, List.filter, List.filterMap]

/-! ## C6 -/

/-- C6: the Android background path arms a timer at call display
(`startIncomingCallTimeout`) with delay `ANDROID_INCOMING_CALL_TIMEOUT_MS`
= 60 s; if it fires while still armed it issues an `RNCallKeep.endCall` for
the displayed call; the answer and end handlers clear the pending timer, after
which a fire is a no-op (emits nothing), so the timeout never resolves a call
that has already been answered or ended. -/
theorem c6_timeout_ends_unanswered_call_and_is_cancellable
    (callUUID : String) (s : BgCallState) (btfThrows endThrows : Bool) :
    ANDROID_INCOMING_CALL_TIMEOUT_MS = 60 * 1000 ∧
    (startIncomingCallTimeout callUUID s).armed =
      some (callUUID, ANDROID_INCOMING_CALL_TIMEOUT_MS) ∧
    (bgTimeoutFire (startIncomingCallTimeout callUUID s) endThrows).2.head? =
      some (CKAction.endCallAt callUUID 0) ∧
    endCallCount callUUID
      (bgTimeoutFire (startIncomingCallTimeout callUUID s) endThrows).2 = 1 ∧
    (bgAnswerCall callUUID s btfThrows endThrows).1.armed = none ∧
    (bgEndCallEvent callUUID s).armed = none ∧
    bgTimeoutFire (bgAnswerCall callUUID s btfThrows endThrows).1 endThrows =
      ((bgAnswerCall callUUID s btfThrows endThrows).1, []) ∧
    bgTimeoutFire (bgEndCallEvent callUUID s) endThrows =
      (bgEndCallEvent callUUID s, []) := by
  cases endThrows <;>
    simp [startIncomingCallTimeout, clearIncomingCallTimeout,
      cleanUpRNCallKeepHandlers, bgTimeoutFire, bgAnswerCall, bgEndCallEvent,
      endCallCount, List.filter, ANDROID_INCOMING_CALL_TIMEOUT_MS]

/-! ## C7 -/

/-- `RNCallKeep.endCall`, which may throw (oracle `throws`). -/
def rnEndCall (_callUUID : String) (throws : Bool) : Except String Unit :=
  if throws then Except.error "Failed to end call" else Except.ok ()

/-- `RNCallKeep.endAllCalls`, which may throw (oracle `throws`). -/
def rnEndAllCalls (throws : Bool) : Except String Unit :=
  if throws then Except.error "Fallback also failed" else Except.ok ()

/-- `endCall` of src/CallKeepService.tsx: try `RNCallKeep.endCall(callUUID)`;
on a throw, catch and try `RNCallKeep.endAllCalls()`; a throw of the fallback
is caught as well and only logged ("Don't throw error to prevent app
crashes").  The result is the list of platform attempts made, inside
`Except`: `Except.error` would model an exception propagating to the
caller. -/
def serviceEndCall (callUUID : String) (endThrows endAllThrows : Bool) :
    Except String (List CKAction) :=
  match rnEndCall callUUID endThrows with
  | Except.ok _ => Except.ok [CKAction.endCallAt callUUID 0]
  | Except.error _ =>
    match rnEndAllCalls endAllThrows with
    | Except.ok _ =>
      Except.ok [CKAction.endCallAt callUUID 0, CKAction.endAllCallsAt 0]
    | Except.error _ =>
      Except.ok [CKAction.endCallAt callUUID 0, CKAction.endAllCallsAt 0]

/-- Whether a `serviceEndCall` run returned normally (no exception escaped). -/
def serviceEndCallOk : Except String (List CKAction) → Bool
  | Except.ok _ => true
  | Except.error _ => false

/-- The platform attempts of a `serviceEndCall` run. -/
def serviceEndCallTrace : Except String (List CKAction) → List CKAction
  | Except.ok tr => tr
  | Except.error _ => []

/-- C7: for every callUUID, if the platform-specific `endCall` throws, the
service falls back to `endAllCalls`; and for every combination of failures the
method returns normally — no exception propagates to the caller.  When the
specific end succeeds, no fallback is attempted. -/
theorem c7_end_call_fallback_and_no_propagation
    (callUUID : String) (endAllThrows : Bool) :
    (∀ endThrows : Bool,
      serviceEndCallOk (serviceEndCall callUUID endThrows endAllThrows) = true) ∧
    CKAction.endAllCallsAt 0 ∈
      serviceEndCallTrace (serviceEndCall callUUID true endAllThrows) ∧
    CKAction.endAllCallsAt 0 ∉
      serviceEndCallTrace (serviceEndCall callUUID false endAllThrows) := by
  refine ⟨fun endThrows => ?_, ?_, ?_⟩ <;>
    cases endAllThrows <;>
      first
      | (cases endThrows <;> rfl)
      | simp [serviceEndCall, rnEndCall, rnEndAllCalls, serviceEndCallTrace]

/-! ## iOS VoIP push path (AppDelegate.swift) -/

/-- The VoIP push payload dictionary fields read by the iOS AppDelegate
(`payloadDict["callId"]`, `["callUUID"]`, `["callerName"]`, `["from"]`,
`["handle"]`, `["sentAt"]`, each `as? String`, `none` when absent or not a
string). -/
structure VoipPayload where
  callId : Option String
  callUUID : Option String
  callerName : Option String
  fromName : Option String
  handle : Option String
  sentAt : Option String
  deriving DecidableEq

/-- `isStaleCallNotification` from the iOS AppDelegate (Swift).
`iso8601Parse` is the `ISO8601DateFormatter` oracle (`none` models a nil
parse); `nowMs` the current time in ms.  Returns `true` when `sentAt` is
missing/not a string, unparsable, or older than
`IOS_BACKGROUND_CALL_EXPIRY_THRESHOLD_MS`. -/
def iosIsStaleCallNotification (sentAt : Option String)
    (iso8601Parse : String → Option Int) (nowMs : Int) : Bool :=
  match sentAt with
  | none => true
  | some s =>
    match iso8601Parse s with
    | none => true
    | some sentMs =>
      decide (nowMs - sentMs > IOS_BACKGROUND_CALL_EXPIRY_THRESHOLD_MS)

/-- The call UUID used by the iOS push handler:
`payloadDict["callId"] ?? payloadDict["callUUID"] ?? UUID().uuidString`. -/
def voipUUID (p : VoipPayload) (freshUUID : String) : String :=
  p.callId.getD (p.callUUID.getD freshUUID)

/-- `payloadDict["callerName"] ?? payloadDict["from"] ?? "Unknown Caller"`. -/
def voipCallerName (p : VoipPayload) : String :=
  p.callerName.getD (p.fromName.getD "Unknown Caller")

/-- `payloadDict["handle"] ?? callerName`. -/
def voipHandle (p : VoipPayload) : String :=
  p.handle.getD (voipCallerName p)

/-- Platform interactions of the iOS `pushRegistry(_:didReceiveIncomingPushWith:)`
handler. -/
inductive IosAction where
  | setupCallKeep
  | reportNewIncomingCall (uuid handle callerName : String)
  | endCallUnanswered (uuid : String)
  | forwardToRN
  | addCompletionHandler (uuid : String)
  deriving DecidableEq

/-- The iOS VoIP push handler (AppDelegate.swift,
`pushRegistry(_:didReceiveIncomingPushWith:for:completion:)`).  When the app
is not active it sets up RNCallKeep, always reports the incoming call to
CallKit, and — only if the staleness check said stale — immediately ends the
just-reported call with `reason: 6` (unanswered); then the push is forwarded
to React Native.  When active it only forwards and registers the completion
handler. -/
def iosPushHandler (p : VoipPayload) (iso8601Parse : String → Option Int)
    (nowMs : Int) (freshUUID : String) (appActive : Bool) : List IosAction :=
  let uuid := voipUUID p freshUUID
  if appActive then
    [IosAction.forwardToRN, IosAction.addCompletionHandler uuid]
  else
    let isStale := iosIsStaleCallNotification p.sentAt iso8601Parse nowMs
    [IosAction.setupCallKeep,
     IosAction.reportNewIncomingCall uuid (voipHandle p) (voipCallerName p)]
      ++ (if isStale then [IosAction.endCallUnanswered uuid] else [])
      ++ [IosAction.forwardToRN]

/-- Helper: a signal whose `isStaleCallNotification` check says stale never
reaches the Android call-UI presentation step. -/
theorem backgroundMessageHandler_not_presented_of_stale {msg : RemoteMessage}
    {callData : MessageData} (storedIds : List String)
    (dateParse : String → Option Int) (now : Int) (moduleAvailable : Bool)
    (h1 : msg.data = some callData)
    (hstale : isStaleCallNotification callData.sentAt dateParse now = true) :
    (backgroundMessageHandler msg storedIds dateParse now
      moduleAvailable).1.presentsUI = false := by
  by_cases ht : callData.type = "incoming_call"
  · cases hm : msg.messageId with
    | none => simp [backgroundMessageHandler, h1, ht, hm, BgDecision.presentsUI]
    | some mid =>
      by_cases hmid : mid = ""
      · simp [backgroundMessageHandler, h1, ht, hm, hmid, BgDecision.presentsUI]
      · rw [backgroundMessageHandler_call_shape storedIds dateParse now
          moduleAvailable h1 ht hm hmid]
        by_cases hmem : mid ∈ storedIds
        · rw [handleMessageDeduplication_of_mem hmem]
          simp [BgDecision.presentsUI]
        · rw [handleMessageDeduplication_of_not_mem hmem]
          simp [hstale, BgDecision.presentsUI]
  · simp [backgroundMessageHandler, h1, ht, BgDecision.presentsUI]

/-! ## C8 -/

/-- A VoIP payload with no `sentAt` field at all. -/
def c8payload : VoipPayload := ⟨some "c9", none, some "Bob", none, none, none⟩

/-- C8 counterexample: for a signal with missing `sentAt` the iOS freshness
check does return stale, but the claim's consequence "no call UI is presented
for such a signal" is false on the iOS path: the handler still reports the
incoming call to CallKit (presenting the call UI) before immediately ending
it. -/
theorem c8_ios_stale_call_still_reported_counterexample :
    iosIsStaleCallNotification c8payload.sentAt (fun _ => none) 0 = true ∧
    IosAction.reportNewIncomingCall "c9" "Bob" "Bob" ∈
      iosPushHandler c8payload (fun _ => none) 0 "fresh" false := by
  decide

/-- C8 amended: a call signal with missing or unparsable `sentAt` is
classified stale by both the TypeScript and the iOS freshness checks; on the
Android path the background handler then presents no call UI, while on the
iOS (not-active) path the handler still reports the call to CallKit and then
immediately ends it with the unanswered reason. -/
theorem c8_missing_or_unparsable_sentAt_rejected
    (dateParse iso8601Parse : String → Option Int) (now nowMs : Int)
    (s s2 : String) (msg : RemoteMessage) (callData : MessageData)
    (storedIds : List String) (moduleAvailable : Bool)
    (p : VoipPayload) (freshUUID : String)
    (hp : dateParse s = none) (hp2 : iso8601Parse s2 = none)
    (hd : msg.data = some callData) (hds : callData.sentAt = none)
    (hps : p.sentAt = none) :
    isStaleCallNotification none dateParse now = true ∧
    isStaleCallNotification (some s) dateParse now = true ∧
    iosIsStaleCallNotification none iso8601Parse nowMs = true ∧
    iosIsStaleCallNotification (some s2) iso8601Parse nowMs = true ∧
    (backgroundMessageHandler msg storedIds dateParse now
      moduleAvailable).1.presentsUI = false ∧
    iosPushHandler p iso8601Parse nowMs freshUUID false =
      [IosAction.setupCallKeep,
       IosAction.reportNewIncomingCall (voipUUID p freshUUID) (voipHandle p)
         (voipCallerName p),
       IosAction.endCallUnanswered (voipUUID p freshUUID),
       IosAction.forwardToRN] := by
  refine ⟨rfl, ?_, rfl, ?_, ?_, ?_⟩
  · by_cases hs : s = ""
    · simp [isStaleCallNotification, hs]
    · simp [isStaleCallNotification, hs, hp]
  · simp [iosIsStaleCallNotification, hp2]
  · apply backgroundMessageHandler_not_presented_of_stale storedIds dateParse
      now moduleAvailable hd
    rw [hds]
    rfl
  · simp [iosPushHandler, iosIsStaleCallNotification, hps]

/-- Witness for C8 at concrete inputs: parse oracles that fail on
everything, a message whose data has no `sentAt`, and a payload with no
`sentAt`. -/
theorem c8_missing_or_unparsable_sentAt_rejected_witness :
    isStaleCallNotification none (fun _ => none) 0 = true ∧
    isStaleCallNotification (some "garbage") (fun _ => none) 0 = true ∧
    iosIsStaleCallNotification none (fun _ => none) 0 = true ∧
    iosIsStaleCallNotification (some "garbage") (fun _ => none) 0 = true ∧
    (backgroundMessageHandler
      ⟨some ⟨"incoming_call", some "Alice", "c1", none⟩, some "m1"⟩
      [] (fun _ => none) 0 true).1.presentsUI = false ∧
    iosPushHandler c8payload (fun _ => none) 0 "fresh" false =
      [IosAction.setupCallKeep,
       IosAction.reportNewIncomingCall (voipUUID c8payload "fresh")
         (voipHandle c8payload) (voipCallerName c8payload),
       IosAction.endCallUnanswered (voipUUID c8payload "fresh"),
       IosAction.forwardToRN] :=
  c8_missing_or_unparsable_sentAt_rejected
    (fun _ => none) (fun _ => none) 0 0 "garbage" "garbage"
    ⟨some ⟨"incoming_call", some "Alice", "c1", none⟩, some "m1"⟩
    ⟨"incoming_call", some "Alice", "c1", none⟩ [] true c8payload "fresh"
    rfl rfl rfl rfl rfl

/-! ## C9 -/

/-- The notification identifier computed by the `SCHEDULE_CALL` branch of
`handleWebViewMessage` in src/App.tsx:
the template literal rendering of call-username-timestamp as written in the
scheduling branch. -/
def scheduleCallIdentifier (username timestamp : String) : String :=
  "call-" ++ username ++ "-" ++ timestamp

/-- The notification identifier computed by the `CANCEL_SCHEDULE_CALL` branch
of `handleWebViewMessage` in src/App.tsx, transcribed independently from that
branch. -/
def cancelScheduleCallIdentifier (username timestamp : String) : String :=
  "call-" ++ username ++ "-" ++ timestamp

/-- C9: for all username and timestamp values, the identifier used when
scheduling a call reminder and the identifier used when cancelling one are
the same deterministic function of the pair — the string
call-username-timestamp — so a cancel request with the same username and
timestamp targets exactly the notification the schedule request created. -/
theorem c9_schedule_cancel_identifiers_agree (username timestamp : String) :
    scheduleCallIdentifier username timestamp =
      cancelScheduleCallIdentifier username timestamp ∧
    scheduleCallIdentifier username timestamp =
      "call-" ++ username ++ "-" ++ timestamp :=
  ⟨rfl, rfl⟩

/-! ## C10 -/

/-- The fields of the incoming call data consumed by
`CallKeepService.handleIncomingCall` (src/CallKeepService.tsx). -/
structure CKCallData where
  callerName : Option String
  callId : String
  deriving DecidableEq

/-- Platform interactions of `CallKeepService.handleIncomingCall`. -/
inductive ServiceAction where
  | setupService
  | displayIncomingCallUI (callUUID callerName localizedCallerName : String)
      (hasVideo : Bool)
  deriving DecidableEq

/-- `handleIncomingCall` from src/CallKeepService.tsx: derives the caller
name (`data.callerName || "Unknown Caller"`, falsy for `undefined` and the
empty string), generates a fresh `uuid.v4()` (the `freshUUID` oracle) as the
call UUID — the commented-out `data.callId` alternative is not used — runs
setup if not yet set up, and displays the call via
`RNCallKeep.displayIncomingCall(callUUID, callerName, callerName, "generic",
false)`. -/
def handleIncomingCall (data : CKCallData) (freshUUID : String)
    (isSetup : Bool) : List ServiceAction :=
  let callerName :=
    match data.callerName with
    | none => "Unknown Caller"
    | some n => if n = "" then "Unknown Caller" else n
  let callUUID := freshUUID
  (if isSetup then [] else [ServiceAction.setupService]) ++
    [ServiceAction.displayIncomingCallUI callUUID callerName callerName false]

/-- The call UUIDs handed to the OS call facility in a trace. -/
def displayedUUIDs (trace : List ServiceAction) : List String :=
  trace.filterMap fun a =>
    match a with
    | ServiceAction.displayIncomingCallUI u _ _ _ => some u
    | _ => none

/-- C10: `handleIncomingCall` always presents the native call UI under the
freshly generated UUID, for every incoming call data the same one, so the
identity shown to the platform is independent of the signal's `callId` and —
as long as the generated UUID differs from the carried `callId` — never
equals it. -/
theorem c10_display_uses_fresh_uuid_independent_of_callId
    (data : CKCallData) (freshUUID : String) (isSetup : Bool)
    (h : freshUUID ≠ data.callId) :
    displayedUUIDs (handleIncomingCall data freshUUID isSetup) = [freshUUID] ∧
    (∀ data2 : CKCallData,
      displayedUUIDs (handleIncomingCall data2 freshUUID isSetup) =
        displayedUUIDs (handleIncomingCall data freshUUID isSetup)) ∧
    data.callId ∉ displayedUUIDs (handleIncomingCall data freshUUID isSetup) := by
  have key : ∀ d : CKCallData,
      displayedUUIDs (handleIncomingCall d freshUUID isSetup) = [freshUUID] := by
    intro d
    cases isSetup <;> simp [handleIncomingCall, displayedUUIDs]
  refine ⟨key data, fun d2 => by rw [key d2, key data], ?_⟩
  rw [key data]
  intro hmem
  rw [List.mem_singleton] at hmem
  exact h hmem.symm

/-- Witness for C10 at concrete inputs. -/
theorem c10_display_uses_fresh_uuid_independent_of_callId_witness :
    displayedUUIDs (handleIncomingCall ⟨some "Alice", "c1"⟩ "u1" true) =
      ["u1"] ∧
    displayedUUIDs (handleIncomingCall ⟨none, "other-call"⟩ "u1" true) =
      displayedUUIDs (handleIncomingCall ⟨some "Alice", "c1"⟩ "u1" true) ∧
    "c1" ∉ displayedUUIDs (handleIncomingCall ⟨some "Alice", "c1"⟩ "u1" true) :=
  have h := c10_display_uses_fresh_uuid_independent_of_callId
    ⟨some "Alice", "c1"⟩ "u1" true (by decide)
  ⟨h.1, h.2.1 ⟨none, "other-call"⟩, h.2.2⟩
